import Mathlib

/-! Shallow embedding of the TRL consumer-app admin panel (Next.js + Prisma CRUD
admin tool) and proofs about its entity-with-optional-image lifecycle.

Sources embedded:
  * `src/app/lib/uploads.ts` (`isLocalUpload`, `toFsPath`, `deleteUploadIfLocal`)
  * `src/app/lib/validators.ts` (`partnerSchema`, `categorySchema`, `announcementSchema`)
  * `src/app/api/upload/route.ts` (`POST`)
  * `src/app/api/partners/[id]/route.ts` (`PUT`)
  * `src/app/api/announcements/[id]/route.ts` (`PUT`)
  * the categories `[id]` route (`PUT`, `DELETE`)
  * `src/app/api/{categories,partners,announcements}/route.ts` (`GET`)
  * the Prisma migration (`Category`, `Partner` tables, `ON DELETE SET NULL`)
  * the in-memory reference store (`createCategory`)

Conventions: machine-level JS strings are Lean `String`s; `string | null` is
`Option String` (`none` = `null`); `string | null | undefined` is
`Option (Option String)` (`none` = `undefined`); timestamps are `Nat`;
filesystem and database I/O is made explicit as an `Effect` trace, and the
fallible `fs.unlink` call is a function parameter (`oracle`) so that
exception behaviour can be quantified over.
-/

namespace TrlAdmin

/-- Tests whether `pre` is a prefix of `s` (over the char lists, so that the
kernel can evaluate it; Lean's built-in byte-level `String` operations do not
reduce definitionally). -/
def listStarts : List Char → List Char → Bool
  | _, [] => true
  | [], _ :: _ => false
  | c :: cs, p :: ps => c == p && listStarts cs ps

/-- Tests whether `pat` occurs as a contiguous sublist of `s`. -/
def listHas (s pat : List Char) : Bool :=
  if listStarts s pat then true
  else
    match s with
    | [] => false
    | _ :: t => listHas t pat

/-- JS `String.prototype.startsWith`. -/
def strStarts (s pre : String) : Bool :=
  listStarts s.data pre.data

/-- JS `String.prototype.includes`: `true` iff `pat` occurs as a substring. -/
def strContains (s pat : String) : Bool :=
  listHas s.data pat.data

/-- Whitespace for JS `trim` (ASCII whitespace; the Unicode extras of the JS
definition play no role in any claim). -/
def wsChar (c : Char) : Bool :=
  c == ' ' || c == '\t' || c == '\n' || c == '\r'

/-- JS `String.prototype.trim` (also zod's `.trim()` transform): drop leading
and trailing whitespace. -/
def jsTrim (s : String) : String :=
  ⟨((s.data.dropWhile wsChar).reverse.dropWhile wsChar).reverse⟩

/-- ASCII lowering of one character (JS `toLowerCase` restricted to ASCII,
which is all the code compares). -/
def lowerChar (c : Char) : Char :=
  if 65 ≤ c.toNat ∧ c.toNat ≤ 90 then Char.ofNat (c.toNat + 32) else c

/-- JS `String.prototype.toLowerCase` (ASCII). -/
def lowerStr (s : String) : String :=
  ⟨s.data.map lowerChar⟩

/-- Embeds `src/app/lib/uploads.ts` `isLocalUpload(url)`:
`!!url && url.startsWith("/uploads/") && !url.includes("..")`.
`none` embeds `undefined`/`null` (both falsy, like `""`). -/
def isLocalUpload : Option String → Bool
  | none => false
  | some s => (!(s == "")) && strStarts s "/uploads/" && (!(strContains s ".."))

/-- Embeds `src/app/lib/uploads.ts` `toFsPath(url)`:
`path.join(process.cwd(), "public", url)`.  `cwd` is the process working
directory; `url` always begins with `/`, so the join is plain concatenation. -/
def toFsPath (cwd url : String) : String :=
  cwd ++ "/public" ++ url

/-- Embeds `src/app/lib/uploads.ts` `deleteUploadIfLocal(url)`.
`oracle` gives the outcome of the `fs/promises` `unlink` call at a path
(success or any filesystem error, e.g. file-not-found).  Returns the
function's outcome (`Except`: an `.error` would be a raised exception) paired
with the list of paths on which an unlink was attempted.  The `try/catch`
swallows every unlink failure. -/
def deleteUploadIfLocal (oracle : String → Except String Unit) (cwd : String)
    (url : Option String) : Except String Unit × List String :=
  match url with
  | none => (Except.ok (), [])
  | some u =>
    if isLocalUpload (some u) then
      let p := toFsPath cwd u
      ((match oracle p with
        | Except.ok _ => Except.ok ()
        | Except.error _ => Except.ok ()), [p])
    else (Except.ok (), [])

/-! Section: validators (`src/app/lib/validators.ts`). -/

/-- The three JS states of an incoming `imageUrl` field:
absent (`undefined`), explicit `null`, or a string. -/
inductive ImageField
  | undef
  | nullv
  | str (s : String)
deriving DecidableEq

/-- The `/^https?:\/\//i` test of the `imageUrl` refinement (case-insensitive
`http://` or `https://` scheme at the start of the string). -/
def hasHttpScheme (t : String) : Bool :=
  strStarts (lowerStr t) "http://" || strStarts (lowerStr t) "https://"

/-- The refinement predicate shared by the three schemas' `imageUrl` string
branch: `v === "" || v.startsWith("/uploads/") || /^https?:\/\//i.test(v)`,
applied to the already-trimmed value. -/
def validImageString (t : String) : Bool :=
  t == "" || strStarts t "/uploads/" || hasHttpScheme t

/-- The `imageUrl` member of all three schemas:
`z.union([z.string().trim().refine(...), z.null(), z.undefined()])
  .transform(v => v === "" ? null : v)`.
Result: `none` = `undefined` (no change), `some none` = `null` (clear),
`some (some a)` = the (trimmed, nonempty) string `a`. -/
def parseImageField : ImageField → Except String (Option (Option String))
  | ImageField.undef => Except.ok none
  | ImageField.nullv => Except.ok (some none)
  | ImageField.str s =>
    let t := jsTrim s
    if validImageString t then
      Except.ok (if t == "" then some none else some (some t))
    else
      Except.error "imageUrl must be empty, a full URL, or /uploads/..."

/-- Here `z.string().url()` is a zod library check (not repository code); it is
embedded as an http(s)-scheme test.  No claim depends on its exact extension,
only on its satisfiability. -/
def isValidUrl (s : String) : Bool :=
  hasHttpScheme s

/-- Request body for the partner schema, with the required fields already
shaped (JSON typing of the non-image fields is abstracted; the schema's
constraints on them are checked by `parsePartner`). -/
structure PartnerBody where
  name : String
  categoryId : String
  link : String
  featured : Bool
  imageUrl : ImageField
deriving DecidableEq

/-- Parsed output of `partnerSchema`. -/
structure PartnerInput where
  name : String
  categoryId : String
  link : String
  featured : Bool
  imageUrl : Option (Option String)
deriving DecidableEq

/-- Embeds `partnerSchema.safeParse`: `name: z.string().min(2)`,
`categoryId: z.string().min(1)`, `link: z.string().url()`,
`featured: z.boolean()`, plus the shared `imageUrl` member.
(zod reports all issues at once; `Except` sequences them — only
success/failure and the success value matter to the claims.) -/
def parsePartner (b : PartnerBody) : Except String PartnerInput :=
  if b.name.length < 2 then Except.error "name: too short"
  else if b.categoryId.length < 1 then Except.error "categoryId: too short"
  else if !(isValidUrl b.link) then Except.error "link: invalid url"
  else
    match parseImageField b.imageUrl with
    | Except.error e => Except.error e
    | Except.ok img =>
      Except.ok { name := b.name, categoryId := b.categoryId, link := b.link,
                  featured := b.featured, imageUrl := img }

/-- Request body for the category schema. -/
structure CategoryBody where
  name : String
  imageUrl : ImageField
deriving DecidableEq

/-- Parsed output of `categorySchema`. -/
structure CategoryInput where
  name : String
  imageUrl : Option (Option String)
deriving DecidableEq

/-- Embeds `categorySchema.safeParse`: `name: z.string().trim().min(2)` (the parsed
name is the trimmed one), plus the shared `imageUrl` member. -/
def parseCategory (b : CategoryBody) : Except String CategoryInput :=
  let nm := jsTrim b.name
  if nm.length < 2 then Except.error "Name must be at least 2 characters"
  else
    match parseImageField b.imageUrl with
    | Except.error e => Except.error e
    | Except.ok img => Except.ok { name := nm, imageUrl := img }

/-- A calendar date with a time-of-day component, as carried by the incoming
`datePublished` (after `z.coerce.date()`; coercion failure of unparseable
strings is not modelled — no claim touches it). -/
structure DateParts where
  year : Nat
  month : Nat
  day : Nat
  timeOfDay : Nat
deriving DecidableEq

/-- A date truncated to local start-of-day, the result of the transform
`d => new Date(d.getFullYear(), d.getMonth(), d.getDate())`. -/
@[ext]
structure DateOnly where
  year : Nat
  month : Nat
  day : Nat
deriving DecidableEq

/-- The announcement schema's `datePublished` transform: keep the calendar
components, drop the time of day. -/
def startOfDay (d : DateParts) : DateOnly :=
  { year := d.year, month := d.month, day := d.day }

/-- Request body for the announcement schema. -/
structure AnnouncementBody where
  title : String
  description : String
  link : String
  datePublished : DateParts
  imageUrl : ImageField
deriving DecidableEq

/-- Parsed output of `announcementSchema`. -/
structure AnnouncementInput where
  title : String
  description : String
  link : String
  datePublished : DateOnly
  imageUrl : Option (Option String)
deriving DecidableEq

/-- Embeds `announcementSchema.safeParse`: `title: z.string().min(2).max(120)`,
`description: z.string().min(2).max(4000)`, `link: z.string().url()`,
`datePublished: z.coerce.date().transform(start-of-day)`, plus the shared
`imageUrl` member. -/
def parseAnnouncement (b : AnnouncementBody) : Except String AnnouncementInput :=
  if b.title.length < 2 then Except.error "title: too short"
  else if b.title.length > 120 then Except.error "title: too long"
  else if b.description.length < 2 then Except.error "description: too short"
  else if b.description.length > 4000 then Except.error "description: too long"
  else if !(isValidUrl b.link) then Except.error "link: invalid url"
  else
    match parseImageField b.imageUrl with
    | Except.error e => Except.error e
    | Except.ok img =>
      Except.ok { title := b.title, description := b.description, link := b.link,
                  datePublished := startOfDay b.datePublished, imageUrl := img }

/-! Section: entity records and the Entity Store.

Record shapes follow the Prisma models (migration `part_000` plus the
`imageUrl` column used throughout the routes); `categoryId` is the nullable
foreign key `Partner.categoryId` (`ON DELETE SET NULL`). -/

/-- A `Partner` row. -/
structure PartnerRec where
  id : String
  name : String
  link : String
  featured : Bool
  categoryId : Option String
  imageUrl : Option String
  createdAt : Nat
  updatedAt : Nat
deriving DecidableEq

/-- A `Category` row. -/
structure CategoryRec where
  id : String
  name : String
  imageUrl : Option String
  createdAt : Nat
  updatedAt : Nat
deriving DecidableEq

/-- An `Announcement` row. -/
structure AnnouncementRec where
  id : String
  title : String
  description : String
  link : String
  datePublished : DateOnly
  imageUrl : Option String
  createdAt : Nat
  updatedAt : Nat
deriving DecidableEq

/-- The relational store (the Prisma database). -/
structure Db where
  categories : List CategoryRec
  partners : List PartnerRec
  announcements : List AnnouncementRec
deriving DecidableEq

/-- Observable side effects of a request handler, in program order. -/
inductive Effect
  | storeWrite (table : String) (id : String)
  | storeDelete (table : String) (id : String)
  | mkdirDir (dir : String)
  | blobWrite (path : String) (size : Nat)
  | unlink (path : String)
deriving DecidableEq

/-- An HTTP response of an entity route. -/
inductive Resp (α : Type)
  | badRequest
  | notFound
  | ok (record : α)
deriving DecidableEq

/-- Result of running a route handler: the response, the store afterwards,
and the effect trace. -/
structure RouteResult (α : Type) where
  resp : Resp α
  db : Db
  effects : List Effect
deriving DecidableEq

/-- Embeds `prisma.partner.findUnique({ where: { id } })`. -/
def findPartner (db : Db) (id : String) : Option PartnerRec :=
  db.partners.find? (fun r => r.id == id)

/-- Embeds `prisma.category.findUnique({ where: { id } })`. -/
def findCategory (db : Db) (id : String) : Option CategoryRec :=
  db.categories.find? (fun r => r.id == id)

/-- Embeds `prisma.announcement.findUnique({ where: { id } })`. -/
def findAnnouncement (db : Db) (id : String) : Option AnnouncementRec :=
  db.announcements.find? (fun r => r.id == id)

/-! Section: `PUT /api/partners/[id]` (`src/app/api/partners/[id]/route.ts`). -/

/-- Embeds the `PUT` handler: validate, look up, write the patch
(`imageUrl` included only when the parsed field is not `undefined`,
`updatedAt` refreshed by Prisma's `@updatedAt` to `now`), then — when the
field was supplied and differs from the stored value — best-effort delete the
old upload.  The effect trace records the store write and the unlink
attempts, in program order. -/
def PUT_partner (oracle : String → Except String Unit) (cwd : String) (db : Db)
    (id : String) (body : PartnerBody) (now : Nat) : RouteResult PartnerRec :=
  match parsePartner body with
  | Except.error _ => { resp := Resp.badRequest, db := db, effects := [] }
  | Except.ok p =>
    match findPartner db id with
    | none => { resp := Resp.notFound, db := db, effects := [] }
    | some ex =>
      let img : Option String :=
        match p.imageUrl with
        | none => ex.imageUrl
        | some v => v
      let upd : PartnerRec :=
        { ex with name := p.name, categoryId := some p.categoryId,
                  link := p.link, featured := p.featured,
                  imageUrl := img, updatedAt := now }
      let db' : Db :=
        { db with partners := db.partners.map (fun r => if r.id == id then upd else r) }
      let delPaths : List String :=
        match p.imageUrl with
        | none => []
        | some v =>
          if v != ex.imageUrl then (deleteUploadIfLocal oracle cwd ex.imageUrl).2 else []
      { resp := Resp.ok upd, db := db',
        effects := Effect.storeWrite "partner" id :: delPaths.map Effect.unlink }

/-! Section: `PUT /api/announcements/[id]` (`src/app/api/announcements/[id]/route.ts`). -/

/-- The announcements `PUT` handler; identical reconciliation logic with the
announcement field set. -/
def PUT_announcement (oracle : String → Except String Unit) (cwd : String) (db : Db)
    (id : String) (body : AnnouncementBody) (now : Nat) : RouteResult AnnouncementRec :=
  match parseAnnouncement body with
  | Except.error _ => { resp := Resp.badRequest, db := db, effects := [] }
  | Except.ok p =>
    match findAnnouncement db id with
    | none => { resp := Resp.notFound, db := db, effects := [] }
    | some ex =>
      let img : Option String :=
        match p.imageUrl with
        | none => ex.imageUrl
        | some v => v
      let upd : AnnouncementRec :=
        { ex with title := p.title, description := p.description,
                  link := p.link, datePublished := p.datePublished,
                  imageUrl := img, updatedAt := now }
      let db' : Db :=
        { db with announcements := db.announcements.map (fun r => if r.id == id then upd else r) }
      let delPaths : List String :=
        match p.imageUrl with
        | none => []
        | some v =>
          if v != ex.imageUrl then (deleteUploadIfLocal oracle cwd ex.imageUrl).2 else []
      { resp := Resp.ok upd, db := db',
        effects := Effect.storeWrite "announcement" id :: delPaths.map Effect.unlink }

/-! Section: `DELETE` on the categories `[id]` route.

`prisma.category.delete` under the migration's
`Partner_categoryId_fkey ... ON DELETE SET NULL`: deleting the row nulls the
`categoryId` of every referencing partner, then the route best-effort deletes
the category's upload. -/

/-- The categories `DELETE` handler (`Resp Unit`'s `ok ()` is the
`{ ok: true }` acknowledgment). -/
def DELETE_category (oracle : String → Except String Unit) (cwd : String) (db : Db)
    (id : String) : RouteResult Unit :=
  match findCategory db id with
  | none => { resp := Resp.notFound, db := db, effects := [] }
  | some ex =>
    let partners' := db.partners.map
      (fun p => if p.categoryId == some id then { p with categoryId := none } else p)
    let categories' := db.categories.filter (fun c => c.id != id)
    let db' : Db := { db with categories := categories', partners := partners' }
    { resp := Resp.ok (), db := db',
      effects := Effect.storeDelete "category" id
        :: (deleteUploadIfLocal oracle cwd ex.imageUrl).2.map Effect.unlink }

/-! Section: the `GET` list routes.

`prisma.findMany({ orderBy: ... })` returns the rows ordered by the given
keys; it is embedded as a sort of the stored rows (insertion sort — any
correct stable sort models the store's ordering guarantee). -/

/-- Order of `GET /api/categories`: `orderBy: { name: "asc" }`. -/
def catOrder (a b : CategoryRec) : Prop :=
  a.name ≤ b.name

instance : DecidableRel catOrder := fun a b => by
  unfold catOrder; infer_instance

instance : IsTotal CategoryRec catOrder :=
  ⟨fun a b => le_total a.name b.name⟩

instance : IsTrans CategoryRec catOrder :=
  ⟨fun _ _ _ hab hbc => le_trans hab hbc⟩

/-- Order of `GET /api/partners`: `orderBy: { createdAt: "desc" }`. -/
def partnerOrder (a b : PartnerRec) : Prop :=
  b.createdAt ≤ a.createdAt

instance : DecidableRel partnerOrder := fun a b => by
  unfold partnerOrder; infer_instance

instance : IsTotal PartnerRec partnerOrder :=
  ⟨fun a b => (le_total b.createdAt a.createdAt)⟩

instance : IsTrans PartnerRec partnerOrder :=
  ⟨fun _ _ _ hab hbc => le_trans hbc hab⟩

/-- Strict calendar order on dates. -/
def dateLt (a b : DateOnly) : Prop :=
  a.year < b.year ∨ (a.year = b.year ∧
    (a.month < b.month ∨ (a.month = b.month ∧ a.day < b.day)))

instance : DecidableRel dateLt := fun a b => by
  unfold dateLt; infer_instance

/-- Order of `GET /api/announcements`:
`orderBy: [{ datePublished: "desc" }, { createdAt: "desc" }]` —
publish date descending, creation time descending as tiebreaker. -/
def annOrder (a b : AnnouncementRec) : Prop :=
  dateLt b.datePublished a.datePublished ∨
    (a.datePublished = b.datePublished ∧ b.createdAt ≤ a.createdAt)

instance : DecidableRel annOrder := fun a b => by
  unfold annOrder; infer_instance

instance : IsTotal AnnouncementRec annOrder := by
  constructor
  intro a b
  unfold annOrder dateLt
  simp only [DateOnly.ext_iff]
  omega

instance : IsTrans AnnouncementRec annOrder := by
  constructor
  intro a b c hab hbc
  unfold annOrder dateLt at hab hbc ⊢
  simp only [DateOnly.ext_iff] at hab hbc ⊢
  omega

/-- Embeds `GET /api/categories` (`src/app/api/categories/route.ts`). -/
def GET_categories (db : Db) : List CategoryRec :=
  db.categories.insertionSort catOrder

/-- Embeds `GET /api/partners` (`src/app/api/partners/route.ts`). -/
def GET_partners (db : Db) : List PartnerRec :=
  db.partners.insertionSort partnerOrder

/-- Embeds `GET /api/announcements` (`src/app/api/announcements/route.ts`). -/
def GET_announcements (db : Db) : List AnnouncementRec :=
  db.announcements.insertionSort annOrder

/-! Section: the Upload Gateway (`src/app/api/upload/route.ts`). -/

/-- The incoming file of the multipart `file` field: its declared media type
(`file.type`, `""` when undeclared), its byte length (`file.size`), and its
original filename when present.  The byte contents beyond the length play no
role in any claim. -/
structure UploadedFile where
  type : String
  size : Nat
  name : Option String
deriving DecidableEq

/-- Response of the upload `POST`. -/
inductive UploadResp
  | fail (status : Nat) (msg : String)
  | created (status : Nat) (url : String)
deriving DecidableEq

/-- Embeds `MAX_BYTES = 5 * 1024 * 1024`. -/
def MAX_BYTES : Nat := 5 * 1024 * 1024

/-- Embeds `ALLOWED = new Set(["image/jpeg", "image/png", "image/webp", "image/gif"])`. -/
def ALLOWED : List String :=
  ["image/jpeg", "image/png", "image/webp", "image/gif"]

/-- Node `path.extname`: the trailing `.`-suffix of the name, else `""`.
(Node's leading-dot edge cases are irrelevant here: the fallback that uses
this value is unreachable for allowed media types.) -/
def extname (s : String) : String :=
  match s.splitOn "." with
  | [] => ""
  | [_] => ""
  | ps => "." ++ ps.getLastD ""

/-- The upload `POST` handler.  `now` is `Date.now()` and `rand` the
`randomBytes(6).toString("hex")` suffix of the generated name; both are
parameters of the embedding.  Effects record the `mkdir` and the byte write. -/
def POST_upload (cwd : String) (now : Nat) (rand : String)
    (file : Option UploadedFile) : UploadResp × List Effect :=
  match file with
  | none => (UploadResp.fail 400 "No file provided", [])
  | some f =>
    let type := if f.type == "" then "application/octet-stream" else f.type
    if !(ALLOWED.contains type) then
      (UploadResp.fail 400 "Unsupported file type", [])
    else if f.size > MAX_BYTES then
      (UploadResp.fail 400 "File too large (max 5MB)", [])
    else
      let origExt := match f.name with
        | some n => extname n
        | none => ""
      let ext :=
        if type == "image/jpeg" then ".jpg"
        else if type == "image/png" then ".png"
        else if type == "image/webp" then ".webp"
        else if type == "image/gif" then ".gif"
        else (if origExt == "" then ".bin" else origExt)
      let nm := toString now ++ "_" ++ rand ++ ext
      let dir := cwd ++ "/public/uploads"
      let full := dir ++ "/" ++ nm
      (UploadResp.created 201 ("/uploads/" ++ nm),
       [Effect.mkdirDir dir, Effect.blobWrite full f.size])

/-- HTTP methods relevant to the routes. -/
inductive HttpMethod
  | GET
  | POST
  | PUT
  | DELETE
deriving DecidableEq

/-- The handlers exported by `src/app/api/upload/route.ts`.  A Next.js App
Router route handles exactly the HTTP-verb functions the module exports; the
upload route exports only `POST`. -/
def uploadRouteMethods : List HttpMethod :=
  [HttpMethod.POST]

/-- Whether the upload route handles a method. -/
def uploadRouteHandles (m : HttpMethod) : Bool :=
  uploadRouteMethods.contains m

/-! Section: the in-memory reference store (unnamed source `part_004`).

Only `createCategory` is needed by a claim.  Its `Category` shape is the one
of `lib/types.ts` (`id`, `name`). -/

/-- A category of the in-memory reference store. -/
structure MemCategory where
  id : String
  name : String
deriving DecidableEq

/-- Embeds `db.createCategory(name)`: case-insensitive duplicate check over the
current `_categories`, throw (`Except.error`) on a duplicate, otherwise
prepend the new category.  `freshId` stands for the random `newId("cat")`.
The state is threaded explicitly: the first component is the store after the
call (unchanged when the call throws). -/
def createCategory (st : List MemCategory) (freshId : String) (name : String) :
    List MemCategory × Except String MemCategory :=
  if st.any (fun c => lowerStr c.name == lowerStr name) then
    (st, Except.error "Category already exists")
  else
    let cat : MemCategory := { id := freshId, name := name }
    (cat :: st, Except.ok cat)

/-! Section: concrete fixtures used by witnesses and counterexamples. -/

/-- An unlink oracle that always succeeds. -/
def oracle0 : String → Except String Unit := fun _ => Except.ok ()

/-- An unlink oracle that always fails (e.g. file-not-found). -/
def oracleFail : String → Except String Unit := fun _ => Except.error "ENOENT"

/-- A stored partner holding the local upload `/uploads/a.jpg`. -/
def pr1 : PartnerRec :=
  { id := "p1", name := "OKX", link := "https://okx.com", featured := true,
    categoryId := some "cat_1", imageUrl := some "/uploads/a.jpg",
    createdAt := 0, updatedAt := 0 }

/-- A store holding just `pr1`. -/
def db1 : Db := { categories := [], partners := [pr1], announcements := [] }

/-- An update body that sets the image to `/uploads/b.jpg`. -/
def bodyP1 : PartnerBody :=
  { name := "OKX", categoryId := "cat_1", link := "https://okx.com",
    featured := true, imageUrl := ImageField.str "/uploads/b.jpg" }

/-- Parse of `bodyP1`. -/
def p1 : PartnerInput :=
  { name := "OKX", categoryId := "cat_1", link := "https://okx.com",
    featured := true, imageUrl := some (some "/uploads/b.jpg") }

/-- An update body that omits `imageUrl` (the `NoChange` signal). -/
def bodyP2 : PartnerBody :=
  { name := "OKX renamed", categoryId := "cat_2", link := "https://okx.com",
    featured := false, imageUrl := ImageField.undef }

/-- Parse of `bodyP2`. -/
def p2 : PartnerInput :=
  { name := "OKX renamed", categoryId := "cat_2", link := "https://okx.com",
    featured := false, imageUrl := none }

/-- A stored announcement holding the local upload `/uploads/c.jpg`. -/
def ar1 : AnnouncementRec :=
  { id := "a1", title := "Launch", description := "We launched",
    link := "https://trlco.world", datePublished := { year := 2025, month := 4, day := 1 },
    imageUrl := some "/uploads/c.jpg", createdAt := 3, updatedAt := 3 }

/-- A store holding just `ar1`. -/
def dbA1 : Db := { categories := [], partners := [], announcements := [ar1] }

/-- An announcement update body that omits `imageUrl`. -/
def bodyA2 : AnnouncementBody :=
  { title := "Launch v2", description := "We launched again",
    link := "https://trlco.world",
    datePublished := { year := 2025, month := 5, day := 2, timeOfDay := 77 },
    imageUrl := ImageField.undef }

/-- Parse of `bodyA2`. -/
def a2 : AnnouncementInput :=
  { title := "Launch v2", description := "We launched again",
    link := "https://trlco.world",
    datePublished := { year := 2025, month := 5, day := 2 },
    imageUrl := none }

/-- An empty store. -/
def dbEmpty : Db := { categories := [], partners := [], announcements := [] }

/-- A category with an upload, referenced by two of three partners. -/
def cat8 : CategoryRec :=
  { id := "cat_1", name := "Exchange", imageUrl := some "/uploads/cat.jpg",
    createdAt := 0, updatedAt := 0 }

/-- Store for the category-deletion witness: `cat_1` referenced by two
partners, one partner detached already. -/
def db8 : Db :=
  { categories := [cat8],
    partners :=
      [ { id := "p1", name := "OKX", link := "https://okx.com", featured := true,
          categoryId := some "cat_1", imageUrl := none, createdAt := 0, updatedAt := 0 },
        { id := "p2", name := "Bybit", link := "https://bybit.com", featured := false,
          categoryId := some "cat_1", imageUrl := none, createdAt := 1, updatedAt := 1 },
        { id := "p3", name := "Indep", link := "https://indep.example", featured := false,
          categoryId := none, imageUrl := none, createdAt := 2, updatedAt := 2 } ],
    announcements := [] }

/-- Announcement created first but published later. -/
def ann9a : AnnouncementRec :=
  { id := "a1", title := "Old post, new date", description := "x",
    link := "https://trlco.world", datePublished := { year := 2025, month := 6, day := 1 },
    imageUrl := none, createdAt := 1, updatedAt := 1 }

/-- Announcement created later but published earlier. -/
def ann9b : AnnouncementRec :=
  { id := "a2", title := "New post, old date", description := "y",
    link := "https://trlco.world", datePublished := { year := 2024, month := 1, day := 1 },
    imageUrl := none, createdAt := 2, updatedAt := 2 }

/-- Store exhibiting the announcements ordering. -/
def db9 : Db := { categories := [], partners := [], announcements := [ann9b, ann9a] }

/-! Section: helper lemmas (shared; not claim theorems). -/

/-- Unfolding of `isLocalUpload` on a present address. -/
theorem isLocalUpload_some_iff (s : String) :
    isLocalUpload (some s) = true ↔
      (s == "") = false ∧ strStarts s "/uploads/" = true ∧ strContains s ".." = false := by
  cases h1 : (s == "") <;> cases h2 : strStarts s "/uploads/" <;>
    cases h3 : strContains s ".." <;> simp [isLocalUpload, h1, h2, h3]

/-- Behaviour of `deleteUploadIfLocal` on a managed address. -/
theorem deleteUpload_local (oracle : String → Except String Unit) (cwd : String)
    (u : String) (h : isLocalUpload (some u) = true) :
    (deleteUploadIfLocal oracle cwd (some u)).2 = [toFsPath cwd u] := by
  simp [deleteUploadIfLocal, h]

/-- Behaviour of `deleteUploadIfLocal` on a non-managed address. -/
theorem deleteUpload_nonlocal (oracle : String → Except String Unit) (cwd : String)
    (u : String) (h : isLocalUpload (some u) = false) :
    (deleteUploadIfLocal oracle cwd (some u)).2 = [] := by
  simp [deleteUploadIfLocal, h]

/-- Nothing is attempted on an absent address. -/
theorem deleteUpload_none (oracle : String → Except String Unit) (cwd : String) :
    (deleteUploadIfLocal oracle cwd none).2 = [] := by
  simp [deleteUploadIfLocal]

/-! Section: claim theorems. -/

/-- C5: for every input address and every outcome of the underlying unlink
call, `deleteUploadIfLocal` completes without raising (`Except.ok ()`, i.e.
every unlink failure — including file-not-found — is swallowed), and it
attempts a filesystem deletion only for an address that starts with the
managed `/uploads/` prefix and contains no `..` traversal segment. -/
theorem deleteUpload_never_raises (oracle : String → Except String Unit)
    (cwd : String) (url : Option String) :
    (deleteUploadIfLocal oracle cwd url).1 = Except.ok () ∧
    ∀ q ∈ (deleteUploadIfLocal oracle cwd url).2,
      ∃ s, url = some s ∧ strStarts s "/uploads/" = true ∧
        strContains s ".." = false ∧ q = toFsPath cwd s := by
  cases url with
  | none => simp [deleteUploadIfLocal]
  | some u =>
    by_cases h : isLocalUpload (some u) = true
    · have hparts := (isLocalUpload_some_iff u).mp h
      constructor
      · simp only [deleteUploadIfLocal, h, if_true]
        cases oracle (toFsPath cwd u) <;> rfl
      · intro q hq
        rw [deleteUpload_local oracle cwd u h] at hq
        simp only [List.mem_singleton] at hq
        exact ⟨u, rfl, hparts.2.1, hparts.2.2, hq⟩
    · rw [Bool.not_eq_true] at h
      constructor
      · simp [deleteUploadIfLocal, h]
      · intro q hq
        rw [deleteUpload_nonlocal oracle cwd u h] at hq
        simp at hq

/-- Witness for C5 at a concrete address and a failing unlink. -/
theorem deleteUpload_never_raises_witness :
    (deleteUploadIfLocal oracleFail "/app" (some "/uploads/a.jpg")).1 = Except.ok () :=
  (deleteUpload_never_raises oracleFail "/app" (some "/uploads/a.jpg")).1

/-- C6 counterexample: the upload route exports no `DELETE` handler, so the
Upload Gateway's external surface does not handle a `DELETE` request. -/
theorem upload_route_delete_unhandled :
    uploadRouteHandles HttpMethod.DELETE = false := by
  decide

/-- C6 (amended): the upload route's external surface handles exactly `POST`;
in particular no `DELETE` (and no `GET`/`PUT`) handler exists. -/
theorem upload_route_handles_only_post :
    uploadRouteHandles HttpMethod.POST = true ∧
    uploadRouteHandles HttpMethod.GET = false ∧
    uploadRouteHandles HttpMethod.PUT = false ∧
    uploadRouteHandles HttpMethod.DELETE = false := by
  decide

/-- C7: creating a category whose name coincides case-insensitively with an
existing category's name (in particular, differs only in letter case) fails
with the duplicate error and leaves the stored categories unchanged. -/
theorem createCategory_dup_caseless (st : List MemCategory) (freshId name : String)
    (h : ∃ c ∈ st, lowerStr c.name = lowerStr name) :
    createCategory st freshId name = (st, Except.error "Category already exists") := by
  obtain ⟨c, hc, he⟩ := h
  have hany : st.any (fun c => lowerStr c.name == lowerStr name) = true :=
    List.any_eq_true.mpr ⟨c, hc, by simp [he]⟩
  simp [createCategory, hany]

/-- Witness for C7: `"exchange"` after `"Exchange"` is rejected and the store
keeps exactly the original category. -/
theorem createCategory_dup_caseless_witness :
    createCategory [{ id := "cat_1", name := "Exchange" }] "cat_2" "exchange" =
      ([{ id := "cat_1", name := "Exchange" }], Except.error "Category already exists") :=
  createCategory_dup_caseless [{ id := "cat_1", name := "Exchange" }] "cat_2" "exchange"
    ⟨{ id := "cat_1", name := "Exchange" }, by simp, by decide⟩

/-- C4: an upload whose declared media type is outside the allowed set is
rejected with the unsupported-type error, and an upload with an allowed type
whose payload exceeds `MAX_BYTES` (5 MiB) is rejected with the too-large
error; in both cases the effect trace is empty — no bytes reach the Blob
Store. -/
theorem upload_rejects_before_write (cwd : String) (now : Nat) (rand : String)
    (f : UploadedFile) :
    (ALLOWED.contains f.type = false →
      POST_upload cwd now rand (some f) =
        (UploadResp.fail 400 "Unsupported file type", [])) ∧
    (ALLOWED.contains f.type = true → f.size > MAX_BYTES →
      POST_upload cwd now rand (some f) =
        (UploadResp.fail 400 "File too large (max 5MB)", [])) := by
  constructor
  · intro h
    by_cases he : (f.type == "") = true
    · have hoc : ¬ ("application/octet-stream" ∈ ALLOWED) := by decide
      simp [POST_upload, he, hoc]
    · rw [Bool.not_eq_true] at he
      have hf : ¬ (f.type ∈ ALLOWED) := by simpa using h
      simp [POST_upload, he, hf]
  · intro h hs
    have he : (f.type == "") = false := by
      cases hv : (f.type == "") with
      | false => rfl
      | true =>
        rw [beq_iff_eq] at hv
        rw [hv] at h
        simp [ALLOWED] at h
    have hf : f.type ∈ ALLOWED := by simpa using h
    simp [POST_upload, he, hf, hs]

/-- Witness for C4: a 10-byte `text/plain` upload is rejected as unsupported,
and a 5 MiB + 1 byte `image/png` upload is rejected as too large; neither
writes. -/
theorem upload_rejects_before_write_witness :
    POST_upload "/app" 0 "r0" (some { type := "text/plain", size := 10, name := none }) =
      (UploadResp.fail 400 "Unsupported file type", []) ∧
    POST_upload "/app" 0 "r0" (some { type := "image/png", size := 5242881, name := none }) =
      (UploadResp.fail 400 "File too large (max 5MB)", []) :=
  ⟨(upload_rejects_before_write "/app" 0 "r0"
      { type := "text/plain", size := 10, name := none }).1 (by decide),
   (upload_rejects_before_write "/app" 0 "r0"
      { type := "image/png", size := 5242881, name := none }).2 (by decide) (by decide)⟩

/-! Section: helper lemmas about the shared `imageUrl` member. -/

/-- A string that trims to empty parses to the `Clear` signal (`some none`). -/
theorem parseImageField_blank (s : String) (h : jsTrim s = "") :
    parseImageField (ImageField.str s) = Except.ok (some none) := by
  simp [parseImageField, validImageString, h]

/-- No accepted `imageUrl` value is the `Set` of the empty string. -/
theorem parseImageField_ok_ne_blank (fld : ImageField) (r : Option (Option String))
    (h : parseImageField fld = Except.ok r) : r ≠ some (some "") := by
  cases fld with
  | undef => simp [parseImageField] at h; simp [← h]
  | nullv => simp [parseImageField] at h; simp [← h]
  | str s =>
    simp only [parseImageField] at h
    by_cases hv : validImageString (jsTrim s) = true
    · rw [if_pos hv] at h
      by_cases ht : (jsTrim s == "") = true
      · rw [if_pos ht] at h
        simp at h
        simp [← h]
      · rw [if_neg ht] at h
        simp at h
        rw [Bool.not_eq_true, beq_eq_false_iff_ne] at ht
        simp [← h]
        intro hc
        exact ht hc
    · rw [if_neg hv] at h
      simp at h

/-- On success, the parsed partner's `imageUrl` is exactly the parse of the
body's `imageUrl` field. -/
theorem parsePartner_image (b : PartnerBody) (r : PartnerInput)
    (h : parsePartner b = Except.ok r) :
    parseImageField b.imageUrl = Except.ok r.imageUrl := by
  simp only [parsePartner] at h
  split_ifs at h
  cases hm : parseImageField b.imageUrl with
  | error e => rw [hm] at h; simp at h
  | ok img => rw [hm] at h; simp at h; rw [← h]

/-- On success, the parsed category's `imageUrl` is exactly the parse of the
body's `imageUrl` field. -/
theorem parseCategory_image (b : CategoryBody) (r : CategoryInput)
    (h : parseCategory b = Except.ok r) :
    parseImageField b.imageUrl = Except.ok r.imageUrl := by
  simp only [parseCategory] at h
  split_ifs at h
  cases hm : parseImageField b.imageUrl with
  | error e => rw [hm] at h; simp at h
  | ok img => rw [hm] at h; simp at h; rw [← h]

/-- On success, the parsed announcement's `imageUrl` is exactly the parse of
the body's `imageUrl` field. -/
theorem parseAnnouncement_image (b : AnnouncementBody) (r : AnnouncementInput)
    (h : parseAnnouncement b = Except.ok r) :
    parseImageField b.imageUrl = Except.ok r.imageUrl := by
  simp only [parseAnnouncement] at h
  split_ifs at h
  cases hm : parseImageField b.imageUrl with
  | error e => rw [hm] at h; simp at h
  | ok img => rw [hm] at h; simp at h; rw [← h]

/-- C10: for each of the three validators, a payload whose `imageUrl` is a
string that is (or trims to) empty parses with `imageUrl = null`
(the `Clear` signal, `some none`), and no accepted payload ever carries
`imageUrl = present("")` (`some (some "")`). -/
theorem validators_blank_image_is_clear :
    (∀ (b : PartnerBody) (r : PartnerInput), parsePartner b = Except.ok r →
      (∀ s, b.imageUrl = ImageField.str s → jsTrim s = "" → r.imageUrl = some none) ∧
      r.imageUrl ≠ some (some "")) ∧
    (∀ (b : CategoryBody) (r : CategoryInput), parseCategory b = Except.ok r →
      (∀ s, b.imageUrl = ImageField.str s → jsTrim s = "" → r.imageUrl = some none) ∧
      r.imageUrl ≠ some (some "")) ∧
    (∀ (b : AnnouncementBody) (r : AnnouncementInput), parseAnnouncement b = Except.ok r →
      (∀ s, b.imageUrl = ImageField.str s → jsTrim s = "" → r.imageUrl = some none) ∧
      r.imageUrl ≠ some (some "")) := by
  refine ⟨fun b r h => ?_, fun b r h => ?_, fun b r h => ?_⟩
  · have hi := parsePartner_image b r h
    refine ⟨fun s hs ht => ?_, parseImageField_ok_ne_blank _ _ hi⟩
    rw [hs, parseImageField_blank s ht] at hi
    exact (Except.ok.injEq _ _ |>.mp hi.symm).symm ▸ rfl
  · have hi := parseCategory_image b r h
    refine ⟨fun s hs ht => ?_, parseImageField_ok_ne_blank _ _ hi⟩
    rw [hs, parseImageField_blank s ht] at hi
    exact (Except.ok.injEq _ _ |>.mp hi.symm).symm ▸ rfl
  · have hi := parseAnnouncement_image b r h
    refine ⟨fun s hs ht => ?_, parseImageField_ok_ne_blank _ _ hi⟩
    rw [hs, parseImageField_blank s ht] at hi
    exact (Except.ok.injEq _ _ |>.mp hi.symm).symm ▸ rfl

/-- Witness for C10: a partner body whose `imageUrl` is `"  "` parses with
`imageUrl` cleared to `null`. -/
theorem validators_blank_image_is_clear_witness :
    ({ name := "OKX", categoryId := "cat_1", link := "https://okx.com",
       featured := true, imageUrl := some none } : PartnerInput).imageUrl = some none :=
  ((validators_blank_image_is_clear).1
    { name := "OKX", categoryId := "cat_1", link := "https://okx.com",
      featured := true, imageUrl := ImageField.str "  " }
    { name := "OKX", categoryId := "cat_1", link := "https://okx.com",
      featured := true, imageUrl := some none }
    rfl).1 "  " rfl (by decide)

/-- C9 counterexample: in the concrete store `db9`, the announcements listing
puts `ann9a` (created at time 1, published 2025-06-01) before `ann9b`
(created at time 2, published 2024-01-01), so the listing is not ordered by
creation time descending — the publish date dominates. -/
theorem announcements_not_listed_by_creation :
    GET_announcements db9 = [ann9a, ann9b] ∧
    ann9a.createdAt < ann9b.createdAt ∧
    ¬ (GET_announcements db9).Sorted
        (fun a b : AnnouncementRec => b.createdAt ≤ a.createdAt) := by
  refine ⟨by decide, by decide, ?_⟩
  intro hs
  rw [show GET_announcements db9 = [ann9a, ann9b] from by decide] at hs
  have h2 := List.rel_of_sorted_cons hs ann9b (by simp)
  simp [ann9a, ann9b] at h2

/-- C9 (amended): every listing is returned in its route's order — categories
by name ascending, partners by creation time descending, and announcements by
publish date descending with creation time descending as tiebreaker; each
listing is a permutation of the stored rows. -/
theorem lists_are_ordered (db : Db) :
    (GET_categories db).Sorted catOrder ∧
    List.Perm (GET_categories db) db.categories ∧
    (GET_partners db).Sorted partnerOrder ∧
    List.Perm (GET_partners db) db.partners ∧
    (GET_announcements db).Sorted annOrder ∧
    List.Perm (GET_announcements db) db.announcements := by
  refine ⟨?_, ?_, ?_, ?_, ?_, ?_⟩
  · exact List.sorted_insertionSort catOrder db.categories
  · exact List.perm_insertionSort catOrder db.categories
  · exact List.sorted_insertionSort partnerOrder db.partners
  · exact List.perm_insertionSort partnerOrder db.partners
  · exact List.sorted_insertionSort annOrder db.announcements
  · exact List.perm_insertionSort annOrder db.announcements

/-! Section: helper lemmas for category deletion. -/

/-- Mapping a function over a list relates the lists pointwise. -/
theorem forall2_map_self {α β : Type} (f : α → β) (l : List α) :
    List.Forall₂ (fun a b => b = f a) l (l.map f) := by
  induction l with
  | nil => exact List.Forall₂.nil
  | cons a t ih => exact List.Forall₂.cons rfl ih

/-- After detaching, no partner references the deleted category. -/
theorem countP_detach_self (l : List PartnerRec) (id : String) :
    (l.map (fun p => if p.categoryId == some id then { p with categoryId := none } else p)).countP
      (fun p => p.categoryId == some id) = 0 := by
  induction l with
  | nil => rfl
  | cons a t ih =>
    by_cases h : (a.categoryId == some id) = true
    · rw [List.map_cons, List.countP_cons, ih, if_pos h]
      rfl
    · have h' := h
      rw [Bool.not_eq_true] at h'
      rw [List.map_cons, List.countP_cons, ih, if_neg h, h']
      rfl

/-- Detaching turns exactly the referencing partners into detached ones. -/
theorem countP_detach_none (l : List PartnerRec) (id : String) :
    (l.map (fun p => if p.categoryId == some id then { p with categoryId := none } else p)).countP
      (fun p => p.categoryId == none) =
    l.countP (fun p => p.categoryId == none) + l.countP (fun p => p.categoryId == some id) := by
  induction l with
  | nil => rfl
  | cons a t ih =>
    by_cases h : (a.categoryId == some id) = true
    · have hn : (a.categoryId == none) = false := by
        rw [beq_iff_eq] at h
        simp [h]
      rw [List.map_cons, List.countP_cons, List.countP_cons, List.countP_cons, ih,
        if_pos h, hn, h]
      have hx : (({ a with categoryId := none } : PartnerRec).categoryId ==
          (none : Option String)) = true := rfl
      have ht : (true = true) := rfl
      rw [if_pos hx, if_neg Bool.false_ne_true, if_pos ht]
      omega
    · have h' := h
      rw [Bool.not_eq_true] at h'
      rw [List.map_cons, List.countP_cons, List.countP_cons, List.countP_cons, ih,
        if_neg h, h', if_neg Bool.false_ne_true]
      omega

/-- C8: deleting an existing category acknowledges with `ok`, deletes no
partner (length preserved), rewrites each partner pointwise — clearing
(`categoryId := none`, the schema's `ON DELETE SET NULL`) exactly those that
referenced the category and leaving every other partner unchanged — after
which no partner references it, the number of detached partners grows by
exactly the number of previous referrers, and the category is absent from the
subsequent listing. -/
theorem delete_category_detaches (oracle : String → Except String Unit) (cwd : String)
    (db : Db) (id : String) (ex : CategoryRec)
    (hfind : findCategory db id = some ex) :
    (DELETE_category oracle cwd db id).resp = Resp.ok () ∧
    (DELETE_category oracle cwd db id).db.partners.length = db.partners.length ∧
    List.Forall₂
      (fun p q => q = if p.categoryId == some id then { p with categoryId := none } else p)
      db.partners (DELETE_category oracle cwd db id).db.partners ∧
    (DELETE_category oracle cwd db id).db.partners.countP
      (fun p => p.categoryId == some id) = 0 ∧
    (DELETE_category oracle cwd db id).db.partners.countP
      (fun p => p.categoryId == none) =
      db.partners.countP (fun p => p.categoryId == none) +
      db.partners.countP (fun p => p.categoryId == some id) ∧
    ∀ c ∈ GET_categories (DELETE_category oracle cwd db id).db, c.id ≠ id := by
  have hd : DELETE_category oracle cwd db id =
      { resp := Resp.ok (),
        db := { db with
          categories := db.categories.filter (fun c => c.id != id),
          partners := db.partners.map
            (fun p => if p.categoryId == some id then { p with categoryId := none } else p) },
        effects := Effect.storeDelete "category" id
          :: (deleteUploadIfLocal oracle cwd ex.imageUrl).2.map Effect.unlink } := by
    simp only [DELETE_category, hfind]
  rw [hd]
  refine ⟨rfl, List.length_map _ _, forall2_map_self _ _, countP_detach_self _ _,
    countP_detach_none _ _, ?_⟩
  intro c hc
  simp only [GET_categories] at hc
  have hmem : c ∈ db.categories.filter (fun c => c.id != id) :=
    (List.perm_insertionSort catOrder _).mem_iff.mp hc
  have hp := (List.mem_filter.mp hmem).2
  simpa using hp

/-- Witness for C8 at `db8`: deleting `cat_1` acknowledges, leaves no partner
referencing `cat_1`, and detaches exactly the two referencing partners
(one partner was already detached, giving three detached in total). -/
theorem delete_category_detaches_witness :
    (DELETE_category oracle0 "/app" db8 "cat_1").resp = Resp.ok () ∧
    (DELETE_category oracle0 "/app" db8 "cat_1").db.partners.countP
      (fun p => p.categoryId == some "cat_1") = 0 ∧
    (DELETE_category oracle0 "/app" db8 "cat_1").db.partners.countP
      (fun p => p.categoryId == none) =
      db8.partners.countP (fun p => p.categoryId == none) +
      db8.partners.countP (fun p => p.categoryId == some "cat_1") :=
  ⟨(delete_category_detaches oracle0 "/app" db8 "cat_1" cat8 (by decide)).1,
   (delete_category_detaches oracle0 "/app" db8 "cat_1" cat8 (by decide)).2.2.2.1,
   (delete_category_detaches oracle0 "/app" db8 "cat_1" cat8 (by decide)).2.2.2.2.1⟩

/-! Section: helper lemmas for the update routes. -/

/-- Replacing exactly the matching elements of a list makes `find?` return the
replacement, provided some element matched and the replacement matches. -/
theorem find?_map_replace {α : Type} (pred : α → Bool) (upd : α) (l : List α) (ex : α)
    (h : l.find? pred = some ex) (hu : pred upd = true) :
    (l.map (fun r => if pred r then upd else r)).find? pred = some upd := by
  induction l with
  | nil => simp at h
  | cons a t ih =>
    by_cases ha : pred a = true
    · rw [List.map_cons, if_pos ha]
      exact List.find?_cons_of_pos _ hu
    · have ha' : ¬ pred a = true := ha
      rw [List.map_cons, if_neg ha', List.find?_cons_of_neg _ ha']
      rw [List.find?_cons_of_neg _ ha'] at h
      exact ih h

/-- C1: a successful partner update (valid payload, record found) whose image
signal was provided (`Set` or `Clear`) writes the requested image reference
into the record; the effect trace starts with the store write and is followed
only by unlink attempts; an unlink of the old blob happens exactly when the
signal was provided, the new value differs from the previous one, and a
previous reference was present (in particular `Set(a)` over `present(a)`
deletes nothing); and when it happens, it is a single attempt on the previous
blob's path, after the store write. -/
theorem put_partner_reconciles (oracle : String → Except String Unit) (cwd : String)
    (db : Db) (id : String) (body : PartnerBody) (now : Nat)
    (p : PartnerInput) (ex : PartnerRec)
    (hparse : parsePartner body = Except.ok p)
    (hfind : findPartner db id = some ex)
    (hloc : ∀ s, ex.imageUrl = some s → isLocalUpload (some s) = true) :
    ∃ upd delPaths,
      PUT_partner oracle cwd db id body now =
        { resp := Resp.ok upd,
          db := { db with partners := db.partners.map (fun r => if r.id == id then upd else r) },
          effects := Effect.storeWrite "partner" id :: delPaths.map Effect.unlink } ∧
      (∀ v, p.imageUrl = some v → upd.imageUrl = v) ∧
      findPartner (PUT_partner oracle cwd db id body now).db id = some upd ∧
      (delPaths ≠ [] ↔ ∃ v, p.imageUrl = some v ∧ v ≠ ex.imageUrl ∧ ex.imageUrl ≠ none) ∧
      (∀ old, ex.imageUrl = some old →
        (∃ v, p.imageUrl = some v ∧ v ≠ some old) → delPaths = [toFsPath cwd old]) := by
  have hex : (ex.id == id) = true :=
    @List.find?_some PartnerRec (fun r => r.id == id) ex db.partners hfind
  have hd : PUT_partner oracle cwd db id body now =
      { resp := Resp.ok { ex with name := p.name, categoryId := some p.categoryId,
                                  link := p.link, featured := p.featured,
                                  imageUrl := (match p.imageUrl with
                                    | none => ex.imageUrl
                                    | some v => v),
                                  updatedAt := now },
        db := { db with partners := db.partners.map (fun r =>
          if r.id == id then
            { ex with name := p.name, categoryId := some p.categoryId,
                      link := p.link, featured := p.featured,
                      imageUrl := (match p.imageUrl with
                        | none => ex.imageUrl
                        | some v => v),
                      updatedAt := now }
          else r) },
        effects := Effect.storeWrite "partner" id ::
          (match p.imageUrl with
           | none => []
           | some v =>
             if v != ex.imageUrl then (deleteUploadIfLocal oracle cwd ex.imageUrl).2
             else []).map Effect.unlink } := by
    simp only [PUT_partner, hparse, hfind]
  refine ⟨_, _, hd, ?_, ?_, ?_, ?_⟩
  · intro v hv
    simp only [hv]
  · rw [hd]
    exact find?_map_replace _ _ _ _ hfind hex
  · cases hp : p.imageUrl with
    | none => simp
    | some v =>
      dsimp only
      by_cases hv : v = ex.imageUrl
      · subst hv
        simp
      · have hbne : (v != ex.imageUrl) = true := by
          simpa using hv
        rw [if_pos hbne]
        cases he : ex.imageUrl with
        | none =>
          rw [deleteUpload_none]
          simp [hv]
        | some old =>
          rw [deleteUpload_local oracle cwd old (hloc old he)]
          constructor
          · intro _
            exact ⟨v, rfl, by rw [he] at hv; exact hv, by simp⟩
          · intro _
            simp
  · intro old hold hex
    obtain ⟨v, hv, hne⟩ := hex
    rw [hv, hold]
    have hbne : (v != some old) = true := by
      simpa using hne
    dsimp only
    rw [if_pos hbne]
    exact deleteUpload_local oracle cwd old (hloc old hold)

/-- Witness for C1: setting `/uploads/b.jpg` over a record holding
`/uploads/a.jpg` (store `db1`). -/
theorem put_partner_reconciles_witness :
    ∃ upd delPaths,
      PUT_partner oracle0 "/app" db1 "p1" bodyP1 5 =
        { resp := Resp.ok upd,
          db := { db1 with partners := db1.partners.map (fun r => if r.id == "p1" then upd else r) },
          effects := Effect.storeWrite "partner" "p1" :: delPaths.map Effect.unlink } ∧
      (∀ v, p1.imageUrl = some v → upd.imageUrl = v) ∧
      findPartner (PUT_partner oracle0 "/app" db1 "p1" bodyP1 5).db "p1" = some upd ∧
      (delPaths ≠ [] ↔ ∃ v, p1.imageUrl = some v ∧ v ≠ pr1.imageUrl ∧ pr1.imageUrl ≠ none) ∧
      (∀ old, pr1.imageUrl = some old →
        (∃ v, p1.imageUrl = some v ∧ v ≠ some old) → delPaths = [toFsPath "/app" old]) :=
  put_partner_reconciles oracle0 "/app" db1 "p1" bodyP1 5 p1 pr1 rfl (by decide)
    (by
      intro s hs
      have h2 : (some "/uploads/a.jpg" : Option String) = some s := hs
      injection h2 with h3
      subst h3
      decide)

/-- C2: when the image signal is `NoChange` (the `imageUrl` field omitted, so
the parsed field is `undefined`), a successful partner or announcement update
leaves the stored record's image reference exactly as it was — whatever the
other field changes — and the effect trace is only the store write: no blob
deletion is attempted. -/
theorem put_nochange_frame (oracle : String → Except String Unit) (cwd : String)
    (dbP dbA : Db) (idP idA : String) (bodyP : PartnerBody) (bodyA : AnnouncementBody)
    (nowP nowA : Nat) (p : PartnerInput) (q : AnnouncementInput)
    (exP : PartnerRec) (exA : AnnouncementRec)
    (hpp : parsePartner bodyP = Except.ok p) (hip : p.imageUrl = none)
    (hfp : findPartner dbP idP = some exP)
    (hpa : parseAnnouncement bodyA = Except.ok q) (hia : q.imageUrl = none)
    (hfa : findAnnouncement dbA idA = some exA) :
    (∃ upd, (PUT_partner oracle cwd dbP idP bodyP nowP).resp = Resp.ok upd ∧
      upd.imageUrl = exP.imageUrl ∧
      findPartner (PUT_partner oracle cwd dbP idP bodyP nowP).db idP = some upd) ∧
    (PUT_partner oracle cwd dbP idP bodyP nowP).effects = [Effect.storeWrite "partner" idP] ∧
    (∃ upd, (PUT_announcement oracle cwd dbA idA bodyA nowA).resp = Resp.ok upd ∧
      upd.imageUrl = exA.imageUrl ∧
      findAnnouncement (PUT_announcement oracle cwd dbA idA bodyA nowA).db idA = some upd) ∧
    (PUT_announcement oracle cwd dbA idA bodyA nowA).effects =
      [Effect.storeWrite "announcement" idA] := by
  have hexP : (exP.id == idP) = true :=
    @List.find?_some PartnerRec (fun r => r.id == idP) exP dbP.partners hfp
  have hexA : (exA.id == idA) = true :=
    @List.find?_some AnnouncementRec (fun r => r.id == idA) exA dbA.announcements hfa
  have hdP : PUT_partner oracle cwd dbP idP bodyP nowP =
      { resp := Resp.ok { exP with name := p.name, categoryId := some p.categoryId,
                                   link := p.link, featured := p.featured,
                                   imageUrl := exP.imageUrl, updatedAt := nowP },
        db := { dbP with partners := dbP.partners.map (fun r =>
          if r.id == idP then
            { exP with name := p.name, categoryId := some p.categoryId,
                       link := p.link, featured := p.featured,
                       imageUrl := exP.imageUrl, updatedAt := nowP }
          else r) },
        effects := [Effect.storeWrite "partner" idP] } := by
    simp only [PUT_partner, hpp, hfp, hip]
    rfl
  have hdA : PUT_announcement oracle cwd dbA idA bodyA nowA =
      { resp := Resp.ok { exA with title := q.title, description := q.description,
                                   link := q.link, datePublished := q.datePublished,
                                   imageUrl := exA.imageUrl, updatedAt := nowA },
        db := { dbA with announcements := dbA.announcements.map (fun r =>
          if r.id == idA then
            { exA with title := q.title, description := q.description,
                       link := q.link, datePublished := q.datePublished,
                       imageUrl := exA.imageUrl, updatedAt := nowA }
          else r) },
        effects := [Effect.storeWrite "announcement" idA] } := by
    simp only [PUT_announcement, hpa, hfa, hia]
    rfl
  refine ⟨⟨{ exP with name := p.name, categoryId := some p.categoryId,
                      link := p.link, featured := p.featured,
                      imageUrl := exP.imageUrl, updatedAt := nowP }, ?_, rfl, ?_⟩, ?_,
          ⟨{ exA with title := q.title, description := q.description,
                      link := q.link, datePublished := q.datePublished,
                      imageUrl := exA.imageUrl, updatedAt := nowA }, ?_, rfl, ?_⟩, ?_⟩
  · rw [hdP]
  · rw [hdP]
    exact find?_map_replace _ _ _ _ hfp hexP
  · rw [hdP]
  · rw [hdA]
  · rw [hdA]
    exact find?_map_replace _ _ _ _ hfa hexA
  · rw [hdA]

/-- Witness for C2: a `NoChange` update over `db1` (partner, other fields
changed) and `dbA1` (announcement) keeps both image references. -/
theorem put_nochange_frame_witness :
    (∃ upd, (PUT_partner oracle0 "/app" db1 "p1" bodyP2 7).resp = Resp.ok upd ∧
      upd.imageUrl = pr1.imageUrl ∧
      findPartner (PUT_partner oracle0 "/app" db1 "p1" bodyP2 7).db "p1" = some upd) ∧
    (PUT_partner oracle0 "/app" db1 "p1" bodyP2 7).effects =
      [Effect.storeWrite "partner" "p1"] ∧
    (∃ upd, (PUT_announcement oracle0 "/app" dbA1 "a1" bodyA2 7).resp = Resp.ok upd ∧
      upd.imageUrl = ar1.imageUrl ∧
      findAnnouncement (PUT_announcement oracle0 "/app" dbA1 "a1" bodyA2 7).db "a1" = some upd) ∧
    (PUT_announcement oracle0 "/app" dbA1 "a1" bodyA2 7).effects =
      [Effect.storeWrite "announcement" "a1"] :=
  put_nochange_frame oracle0 "/app" db1 dbA1 "p1" "a1" bodyP2 bodyA2 7 7 p2 a2 pr1 ar1
    rfl rfl (by decide) rfl rfl (by decide)

/-- C3: an update whose payload passes validation but whose id matches no
record fails with `NotFound`, leaves the store exactly as it was, and
produces no effect at all — no store write and no blob deletion — for both
the partner and the announcement route. -/
theorem put_missing_id_notfound (oracle : String → Except String Unit) (cwd : String)
    (dbP dbA : Db) (idP idA : String) (bodyP : PartnerBody) (bodyA : AnnouncementBody)
    (nowP nowA : Nat) (p : PartnerInput) (q : AnnouncementInput)
    (hpp : parsePartner bodyP = Except.ok p) (hfp : findPartner dbP idP = none)
    (hpa : parseAnnouncement bodyA = Except.ok q) (hfa : findAnnouncement dbA idA = none) :
    PUT_partner oracle cwd dbP idP bodyP nowP =
      { resp := Resp.notFound, db := dbP, effects := [] } ∧
    PUT_announcement oracle cwd dbA idA bodyA nowA =
      { resp := Resp.notFound, db := dbA, effects := [] } := by
  constructor
  · simp only [PUT_partner, hpp, hfp]
  · simp only [PUT_announcement, hpa, hfa]

/-- Witness for C3: valid bodies against the empty store yield `NotFound`
with no store change and no effects. -/
theorem put_missing_id_notfound_witness :
    PUT_partner oracle0 "/app" dbEmpty "p1" bodyP1 9 =
      { resp := Resp.notFound, db := dbEmpty, effects := [] } ∧
    PUT_announcement oracle0 "/app" dbEmpty "a1" bodyA2 9 =
      { resp := Resp.notFound, db := dbEmpty, effects := [] } :=
  put_missing_id_notfound oracle0 "/app" dbEmpty dbEmpty "p1" "a1" bodyP1 bodyA2 9 9 p1 a2
    rfl (by decide) rfl (by decide)

end TrlAdmin
